import Mathlib

/-!
Verification of the search-adapter layer of the `a2a-research-agent`
repository (`src/tools.py`).

The executable logic of the repository consists of a URL → domain
normalizer (`extract_domain`) and three provider adapters
(`search_tavily`, `search_exa`, `search_with_urls`) that issue one
backend call each and string-format the reply.  We embed these functions
shallowly:

* Python strings are `String`; slicing `s[:n]` is `strTake`, `s[4:]` is
  dropping 4 characters of the character list.
* The relevant fragment of `urllib.parse.urlparse` (netloc extraction)
  is embedded in `urlparseNetloc`.  We model CPython `urlsplit`: the
  WHATWG C0-control/space left strip, removal of the unsafe bytes
  tab/CR/LF, the scheme split (first `:` with an ASCII-alphabetic first
  character and scheme characters before it), netloc as the text after
  a leading `//` up to the first `/`, `?` or `#`, and the
  "Invalid IPv6 URL" `ValueError` on unbalanced square brackets in the
  netloc.  The NFKC `_checknetloc` validation and the bracketed-host
  validation (which concern only non-ASCII or `[...]`-bracketed hosts)
  are outside the model; no claim touches them.
* Each backend (Tavily / Exa client call) is an oracle parameter of type
  `TavilyCall → Except String TavilyResponse` (resp. Exa): `.error e`
  embeds the backend call raising an exception with `str(e) = e`, and
  `.ok r` embeds a successful JSON reply.  The adapters are then total
  Lean functions; the `try/except` of the source is the `match` on the
  oracle's result, so "the adapter never raises" is embedded by the
  functions being total and returning a `String` on every input.
* Logging calls are side effects outside the data flow and are not
  modelled.
-/

/-- Boolean test that `p` is a prefix of `s` (Python `s.startswith(p)`),
written recursively on character lists so that it unfolds by `simp`. -/
def listStartsWith : List Char → List Char → Bool
  | [], _ => true
  | _ :: _, [] => false
  | p :: ps, c :: cs => p == c && listStartsWith ps cs

/-- Boolean test that `pat` occurs somewhere in `s` (Python `pat in s`). -/
def listContains : List Char → List Char → Bool
  | [], pat => listStartsWith pat []
  | s@(_ :: t), pat => listStartsWith pat s || listContains t pat

/-- String wrapper of `listContains`: Python `pat in s`. -/
def strContainsSub (s pat : String) : Bool :=
  listContains s.data pat.data

/-- String wrapper of `listStartsWith`: Python `s.startswith(pat)`. -/
def strStartsWith (s pat : String) : Bool :=
  listStartsWith pat.data s.data

/-- Python slice `s[:n]` (by characters, as Python slices by code points). -/
def strTake (s : String) (n : Nat) : String :=
  ⟨s.data.take n⟩

/-- Number of (possibly overlapping) occurrence positions of `pat` in `s`. -/
def countOcc : List Char → List Char → Nat
  | [], pat => if listStartsWith pat [] then 1 else 0
  | s@(_ :: t), pat => (if listStartsWith pat s then 1 else 0) + countOcc t pat

/-- Characters allowed after the first character of a URL scheme
(CPython `urllib.parse.scheme_chars`). -/
def schemeChars : List Char :=
  "abcdefghijklmnopqrstuvwxyzABCDEFGHIJKLMNOPQRSTUVWXYZ0123456789+-.".data

/-- WHATWG C0-control-or-space class stripped from the left of a URL by
CPython `urlsplit` (code points 0x00–0x20). -/
def isC0ControlOrSpace (c : Char) : Bool :=
  c.toNat ≤ 32

/-- The unsafe URL bytes CPython `urlsplit` removes everywhere: tab, CR, LF. -/
def isUnsafeUrlChar (c : Char) : Bool :=
  c == '\t' || c == '\r' || c == '\n'

/-- CPython `urlsplit` preprocessing: left-strip C0 controls and spaces,
then delete every tab, CR and LF. -/
def cleanUrl (l : List Char) : List Char :=
  (l.dropWhile isC0ControlOrSpace).filter (fun c => !(isUnsafeUrlChar c))

/-- CPython `urlsplit` scheme split: if the first `:` is at position
`i > 0`, the first character is ASCII-alphabetic (`Char.isAlpha` is
exactly the ASCII test of `url[0].isascii() and url[0].isalpha()`) and
the characters strictly between positions 0 and `i` are scheme
characters, the scheme and the colon are removed; otherwise the URL is
left unchanged.  (The lower-cased scheme itself is irrelevant to netloc
extraction and is not returned.) -/
def splitScheme (l : List Char) : List Char :=
  match List.findIdx? (fun c => c == ':') l with
  | some i =>
      if 0 < i then
        match l with
        | [] => l
        | c0 :: _ =>
            if c0.isAlpha && ((l.take i).drop 1).all (fun c => schemeChars.contains c)
            then l.drop (i + 1)
            else l
      else l
  | none => l

/-- CPython `_splitnetloc` guarded by the `url[:2] == '//'` test: the
netloc is the text after a leading `//` up to the first `/`, `?` or `#`;
without a leading `//` the netloc is empty. -/
def splitNetloc (l : List Char) : List Char :=
  if l.take 2 = ['/', '/'] then
    (l.drop 2).takeWhile (fun c => !(c == '/' || c == '?' || c == '#'))
  else []

/-- Netloc extraction of CPython `urlparse`: preprocessing, scheme split,
netloc split, and the "Invalid IPv6 URL" `ValueError` (embedded as
`.error ()`) when the netloc contains `[` without `]` or `]` without
`[`. -/
def urlparseNetloc (url : String) : Except Unit String :=
  let l := cleanUrl url.data
  let rest := splitScheme l
  let n := splitNetloc rest
  if (n.contains '[' && !(n.contains ']')) || (n.contains ']' && !(n.contains '[')) then
    .error ()
  else
    .ok ⟨n⟩

/-- Embedding of `extract_domain` of `src/tools.py`: prepend `http://`
when `://` is absent, parse, return the netloc with one leading `www.`
stripped; the bare `except` returns the (possibly already reassigned)
local `url` when parsing raises. -/
def extract_domain (url : String) : String :=
  let url1 := if strContainsSub url "://" then url else "http://" ++ url
  match urlparseNetloc url1 with
  | .ok domain =>
      if strStartsWith domain "www." then ⟨domain.data.drop 4⟩ else domain
  | .error _ => url1

/-- One Tavily search result: the `title` / `url` / `content` fields of
an element of the backend's `results` list. -/
structure TavilyResult where
  title : String
  url : String
  content : String
deriving DecidableEq

/-- A Tavily search reply: the optional `answer` string and the
`results` list.  `answer = none` embeds a missing or `None` field; the
Python truthiness test `if response.get('answer')` is also false for
`some ""`. -/
structure TavilyResponse where
  answer : Option String
  results : List TavilyResult
deriving DecidableEq

/-- The keyword arguments of one call to `TavilyClient.search`. -/
structure TavilyCall where
  query : String
  searchDepth : Option String
  includeDomains : Option (List String)
  maxResults : Int
  includeAnswer : Bool
deriving DecidableEq

/-- One Exa search result: the `title` / `url` / `text` fields. -/
structure ExaResult where
  title : String
  url : String
  text : String
deriving DecidableEq

/-- An Exa `search_and_contents` reply: its `results` list. -/
structure ExaResponse where
  results : List ExaResult
deriving DecidableEq

/-- The keyword arguments of one call to `Exa.search_and_contents`
(`text={"max_characters": 800}` is carried as `textMaxCharacters`). -/
structure ExaCall where
  query : String
  numResults : Int
  useAutoprompt : Bool
  textMaxCharacters : Int
deriving DecidableEq

/-- A backend oracle: what the one Tavily (resp. Exa) client call inside
the adapter's `try` block does, as a function of its arguments —
`.error e` for raising an exception with `str(e) = e`, `.ok r` for
returning reply `r`. -/
def TavilyBackend : Type :=
  TavilyCall → Except String TavilyResponse

/-- An Exa backend oracle, in the same sense as `TavilyBackend`. -/
def ExaBackend : Type :=
  ExaCall → Except String ExaResponse

/-- Python truthiness of `response.get('answer')`: false for a missing
field and for the empty string. -/
def pyTruthyStr : Option String → Bool
  | none => false
  | some s => !(s == "")

/-- Concatenation of a list of strings (the repeated `formatted += ...`
of the source loops). -/
def strJoin : List String → String
  | [] => ""
  | s :: t => s ++ strJoin t

/-- Python `repr` of a list of strings as interpolated by
`f"... {domains}."` — `['a', 'b']`.  (Python would escape a quote
character inside an element; no claim depends on that case.) -/
def pyListRepr (l : List String) : String :=
  "[" ++ strJoin (List.intersperse ", " (l.map (fun s => "'" ++ s ++ "'"))) ++ "]"

/-- The 200-character snippet `r['content'][:200]` of a Tavily result in
`search_tavily`. -/
def tavilySnippet (r : TavilyResult) : String :=
  strTake r.content 200

/-- The 200-character snippet `r.text[:200]` of an Exa result. -/
def exaSnippet (r : ExaResult) : String :=
  strTake r.text 200

/-- The 200-character snippet `r['content'][:200]` of a Tavily result in
`search_with_urls`. -/
def urlSnippet (r : TavilyResult) : String :=
  strTake r.content 200

/-- One iteration of the `search_tavily` formatting loop:
`f"{i}. {r['title']} - {r['url']}\nSnippet: {r['content'][:200]}\n"`. -/
def tavilyEntry (i : Nat) (r : TavilyResult) : String :=
  toString i ++ ". " ++ r.title ++ " - " ++ r.url ++ "\nSnippet: " ++ tavilySnippet r ++ "\n"

/-- The entry strings produced by `enumerate(response['results'], i)` in
`search_tavily`. -/
def tavilyEntries : Nat → List TavilyResult → List String
  | _, [] => []
  | i, r :: rs => tavilyEntry i r :: tavilyEntries (i + 1) rs

/-- One iteration of the `search_exa` formatting loop:
`f"{i}. {r.title} - {r.url}\nText: {r.text[:200]}...\n"`. -/
def exaEntry (i : Nat) (r : ExaResult) : String :=
  toString i ++ ". " ++ r.title ++ " - " ++ r.url ++ "\nText: " ++ exaSnippet r ++ "...\n"

/-- The entry strings produced by `enumerate(response.results, i)` in
`search_exa`. -/
def exaEntries : Nat → List ExaResult → List String
  | _, [] => []
  | i, r :: rs => exaEntry i r :: exaEntries (i + 1) rs

/-- One iteration of the `search_with_urls` formatting loop:
`f"- {r['title']} ({r['url']}): {r['content'][:200]}\n"`. -/
def urlEntry (r : TavilyResult) : String :=
  "- " ++ r.title ++ " (" ++ r.url ++ "): " ++ urlSnippet r ++ "\n"

/-- The entry strings of the `search_with_urls` loop (no enumeration). -/
def urlEntries : List TavilyResult → List String
  | [] => []
  | r :: rs => urlEntry r :: urlEntries rs

/-- The arguments `search_tavily` passes to `tavily.search`:
`query=query, search_depth=search_depth, max_results=max_results,
include_answer=True`. -/
def tavilySearchCall (query search_depth : String) (max_results : Int) : TavilyCall :=
  ⟨query, some search_depth, none, max_results, true⟩

/-- The `Quick Summary` line of `search_tavily`, present exactly when
`response.get('answer')` is truthy. -/
def answerLine (answer : Option String) : String :=
  if pyTruthyStr answer then "Quick Summary: " ++ answer.getD "" ++ "\n" else ""

/-- Embedding of `search_tavily` of `src/tools.py`, parameterized by the
backend oracle `tb` standing for the `tavily.search` call inside the
`try` block. -/
def search_tavily (query search_depth : String) (max_results : Int)
    (tb : TavilyBackend) : String :=
  match tb (tavilySearchCall query search_depth max_results) with
  | .error e => "Error: Tavily failed (" ++ e ++ ")"
  | .ok response =>
      if response.results.isEmpty then
        "Notice: No Tavily results for '" ++ query ++ "'."
      else
        "**Tavily Data:**\n" ++ answerLine response.answer
          ++ strJoin (tavilyEntries 1 response.results)

/-- The arguments `search_exa` passes to `exa.search_and_contents`. -/
def exaSearchCall (query : String) (num_results : Int) (use_autoprompt : Bool) : ExaCall :=
  ⟨query, num_results, use_autoprompt, 800⟩

/-- Embedding of `search_exa` of `src/tools.py`, parameterized by the
backend oracle `eb` standing for the `exa.search_and_contents` call. -/
def search_exa (query : String) (num_results : Int) (use_autoprompt : Bool)
    (eb : ExaBackend) : String :=
  match eb (exaSearchCall query num_results use_autoprompt) with
  | .error e => "Error: Exa failed (" ++ e ++ ")"
  | .ok response =>
      if response.results.isEmpty then
        "Notice: No Exa results for '" ++ query ++ "'."
      else
        "**Exa Neural Data:**\n" ++ strJoin (exaEntries 1 response.results)

/-- The arguments `search_with_urls` passes to `tavily.search`:
`query=query, include_domains=domains, max_results=max_results`, where
`domains = [extract_domain(u) for u in urls]`. -/
def searchWithUrlsCall (query : String) (urls : List String) (max_results : Int) : TavilyCall :=
  ⟨query, none, some (urls.map extract_domain), max_results, false⟩

/-- Embedding of `search_with_urls` of `src/tools.py`.  The `use_tool`
parameter is accepted and, as in the source, never read; the only
backend the body can reach is the Tavily oracle `tb`. -/
def search_with_urls (query : String) (urls : List String) (use_tool : String)
    (max_results : Int) (tb : TavilyBackend) : String :=
  let domains := urls.map extract_domain
  match tb (searchWithUrlsCall query urls max_results) with
  | .error e => "Error: Domain search failed (" ++ e ++ ")"
  | .ok response =>
      if response.results.isEmpty then
        "Notice: No data found within domains " ++ pyListRepr domains ++ "."
      else
        "**Targeted Domain Results:**\n" ++ strJoin (urlEntries response.results)

theorem strData_append (a b : String) : (a ++ b).data = a.data ++ b.data := rfl

theorem listStartsWith_append (p l r : List Char) (h : listStartsWith p l = true) :
    listStartsWith p (l ++ r) = true := by
  induction p generalizing l with
  | nil => simp [listStartsWith]
  | cons p ps ih =>
      cases l with
      | nil => simp [listStartsWith] at h
      | cons c cs =>
          simp only [listStartsWith, Bool.and_eq_true] at h
          simp only [List.cons_append, listStartsWith, Bool.and_eq_true]
          exact ⟨h.1, ih cs h.2⟩

theorem listContains_nil_pat (s : List Char) : listContains s [] = true := by
  induction s with
  | nil => rfl
  | cons c t ih => simp [listContains, listStartsWith, ih]

theorem listContains_append_left (l r pat : List Char) (h : listContains l pat = true) :
    listContains (l ++ r) pat = true := by
  induction l with
  | nil =>
      cases pat with
      | nil => exact listContains_nil_pat r
      | cons p ps => simp [listContains, listStartsWith] at h
  | cons c t ih =>
      simp only [listContains, Bool.or_eq_true] at h
      simp only [List.cons_append, listContains, Bool.or_eq_true]
      cases h with
      | inl h => exact Or.inl (listStartsWith_append _ _ _ h)
      | inr h => exact Or.inr (ih h)

theorem listStartsWith_cons_false (p c : Char) (ps cs : List Char) (h : (p == c) = false) :
    listStartsWith (p :: ps) (c :: cs) = false := by
  simp [listStartsWith, h]

theorem strContainsSub_concat3 (a q b pat : String)
    (h : listContains a.data pat.data = true) :
    strContainsSub (a ++ q ++ b) pat = true := by
  unfold strContainsSub
  rw [strData_append, strData_append]
  exact listContains_append_left _ _ _ (listContains_append_left _ _ _ h)

theorem strConcat3_ne_empty (a q b : String) (h : a.data ≠ []) : a ++ q ++ b ≠ "" := by
  intro hc
  apply h
  have hd : ((a ++ q) ++ b).data = ("" : String).data := congrArg String.data hc
  rw [strData_append, strData_append] at hd
  have hd2 : (a.data ++ q.data) ++ b.data = [] := hd
  rcases List.append_eq_nil.mp hd2 with ⟨h1, _⟩
  rcases List.append_eq_nil.mp h1 with ⟨h2, _⟩
  exact h2

theorem strStartsWith_concat3_false (a q b p : String) {c0 d0 : Char} {ta tp : List Char}
    (ha : a.data = c0 :: ta) (hp : p.data = d0 :: tp) (h : (d0 == c0) = false) :
    strStartsWith (a ++ q ++ b) p = false := by
  unfold strStartsWith
  rw [strData_append, strData_append, ha, hp, List.cons_append, List.cons_append]
  exact listStartsWith_cons_false _ _ _ _ h

theorem strStartsWith_concat2 (a b p : String) (h : listStartsWith p.data a.data = true) :
    strStartsWith (a ++ b) p = true := by
  unfold strStartsWith
  rw [strData_append]
  exact listStartsWith_append _ _ _ h

theorem strStartsWith_concat3 (a q b p : String) (h : listStartsWith p.data a.data = true) :
    strStartsWith (a ++ q ++ b) p = true := by
  unfold strStartsWith
  rw [strData_append, strData_append]
  exact listStartsWith_append _ _ _ (listStartsWith_append _ _ _ h)

theorem tavilyEntries_length (i : Nat) (rs : List TavilyResult) :
    (tavilyEntries i rs).length = rs.length := by
  induction rs generalizing i with
  | nil => rfl
  | cons r t ih => simp [tavilyEntries, ih]

example : extract_domain "https://www.example.com/path" = "example.com" := by decide
example : extract_domain "example.com" = "example.com" := by decide
example : extract_domain "https://WWW.example.com" = "WWW.example.com" := by decide
example : extract_domain "https://www.www.example.com" = "www.example.com" := by decide
example : extract_domain "https://www.nu.edu.eg/page" = "nu.edu.eg" := by decide
example : extract_domain "[" = "http://[" := by decide

example :
    search_tavily "X" "advanced" 2
      (fun _ => .ok ⟨some "Because.", [⟨"A", "u1", "c1"⟩, ⟨"B", "u2", "c2"⟩]⟩) =
    "**Tavily Data:**\nQuick Summary: Because.\n1. A - u1\nSnippet: c1\n2. B - u2\nSnippet: c2\n" := by
  decide

example :
    search_exa "q" 3 true (fun _ => .ok ⟨[⟨"A", "u", "t"⟩]⟩) =
    "**Exa Neural Data:**\n1. A - u\nText: t...\n" := by
  decide

example :
    search_with_urls "q" ["https://www.nu.edu.eg/page"] "auto" 5 (fun _ => .ok ⟨none, []⟩) =
    "Notice: No data found within domains ['nu.edu.eg']." := by
  decide

/-- C1: for every adapter call, if the backend call inside the `try`
block raises (the oracle returns `.error e` on the argument the adapter
passes), the adapter returns a string beginning with the literal
`"Error:"`; the adapter itself never raises, which the embedding
renders by `search_tavily`, `search_exa` and `search_with_urls` being
total functions into `String`. -/
theorem C1_adapters_catch_backend_errors :
    (∀ (q d : String) (m : Int) (e : String) (tb : TavilyBackend),
        tb (tavilySearchCall q d m) = .error e →
        strStartsWith (search_tavily q d m tb) "Error:" = true) ∧
    (∀ (q : String) (n : Int) (a : Bool) (e : String) (eb : ExaBackend),
        eb (exaSearchCall q n a) = .error e →
        strStartsWith (search_exa q n a eb) "Error:" = true) ∧
    (∀ (q t : String) (urls : List String) (m : Int) (e : String) (tb : TavilyBackend),
        tb (searchWithUrlsCall q urls m) = .error e →
        strStartsWith (search_with_urls q urls t m tb) "Error:" = true) := by
  refine ⟨?_, ?_, ?_⟩
  · intro q d m e tb h
    unfold search_tavily
    rw [h]
    exact strStartsWith_concat3 _ _ _ _ (by decide)
  · intro q n a e eb h
    unfold search_exa
    rw [h]
    exact strStartsWith_concat3 _ _ _ _ (by decide)
  · intro q t urls m e tb h
    unfold search_with_urls
    rw [h]
    exact strStartsWith_concat3 _ _ _ _ (by decide)

/-- Concrete instantiation of `C1_adapters_catch_backend_errors`: each
adapter applied to a backend that raises `boom` yields an
`"Error:"`-prefixed string. -/
theorem C1_adapters_catch_backend_errors_witness :
    strStartsWith (search_tavily "q" "advanced" 2 (fun _ => .error "boom")) "Error:" = true ∧
    strStartsWith (search_exa "q" 3 true (fun _ => .error "boom")) "Error:" = true ∧
    strStartsWith
      (search_with_urls "q" ["example.com"] "auto" 2 (fun _ => .error "boom")) "Error:" = true :=
  ⟨C1_adapters_catch_backend_errors.1 "q" "advanced" 2 "boom" _ rfl,
   C1_adapters_catch_backend_errors.2.1 "q" 3 true "boom" _ rfl,
   C1_adapters_catch_backend_errors.2.2 "q" "auto" ["example.com"] 2 "boom" _ rfl⟩

/-- C2: for every adapter call whose backend returns a reply with an
empty `results` list, the adapter returns its plain notice string: the
output contains `"No Tavily results"` / `"No Exa results"` /
`"No data found"` respectively, is never the empty string, and does not
begin with `"Error:"` (and, the embedding being total, no exception is
raised). -/
theorem C2_empty_results_notice :
    (∀ (q d : String) (m : Int) (ans : Option String) (tb : TavilyBackend),
        tb (tavilySearchCall q d m) = .ok ⟨ans, []⟩ →
        strContainsSub (search_tavily q d m tb) "No Tavily results" = true ∧
        search_tavily q d m tb ≠ "" ∧
        strStartsWith (search_tavily q d m tb) "Error:" = false) ∧
    (∀ (q : String) (n : Int) (a : Bool) (eb : ExaBackend),
        eb (exaSearchCall q n a) = .ok ⟨[]⟩ →
        strContainsSub (search_exa q n a eb) "No Exa results" = true ∧
        search_exa q n a eb ≠ "" ∧
        strStartsWith (search_exa q n a eb) "Error:" = false) ∧
    (∀ (q t : String) (urls : List String) (m : Int) (ans : Option String)
        (tb : TavilyBackend),
        tb (searchWithUrlsCall q urls m) = .ok ⟨ans, []⟩ →
        strContainsSub (search_with_urls q urls t m tb) "No data found" = true ∧
        search_with_urls q urls t m tb ≠ "" ∧
        strStartsWith (search_with_urls q urls t m tb) "Error:" = false) := by
  refine ⟨?_, ?_, ?_⟩
  · intro q d m ans tb h
    unfold search_tavily
    rw [h]
    exact ⟨strContainsSub_concat3 _ _ _ _ (by decide),
           strConcat3_ne_empty _ _ _ (by decide),
           strStartsWith_concat3_false _ _ _ _ rfl rfl (by decide)⟩
  · intro q n a eb h
    unfold search_exa
    rw [h]
    exact ⟨strContainsSub_concat3 _ _ _ _ (by decide),
           strConcat3_ne_empty _ _ _ (by decide),
           strStartsWith_concat3_false _ _ _ _ rfl rfl (by decide)⟩
  · intro q t urls m ans tb h
    unfold search_with_urls
    rw [h]
    exact ⟨strContainsSub_concat3 _ _ _ _ (by decide),
           strConcat3_ne_empty _ _ _ (by decide),
           strStartsWith_concat3_false _ _ _ _ rfl rfl (by decide)⟩

/-- Concrete instantiation of `C2_empty_results_notice` at backends
reporting zero results. -/
theorem C2_empty_results_notice_witness :
    strContainsSub (search_tavily "q" "advanced" 2 (fun _ => .ok ⟨none, []⟩))
      "No Tavily results" = true ∧
    strContainsSub (search_exa "q" 3 true (fun _ => .ok ⟨[]⟩)) "No Exa results" = true ∧
    strContainsSub (search_with_urls "q" ["example.com"] "auto" 2 (fun _ => .ok ⟨none, []⟩))
      "No data found" = true :=
  ⟨(C2_empty_results_notice.1 "q" "advanced" 2 none _ rfl).1,
   (C2_empty_results_notice.2.1 "q" 3 true _ rfl).1,
   (C2_empty_results_notice.2.2 "q" "auto" ["example.com"] 2 none _ rfl).1⟩

/-- C3: the output of `search_with_urls` is independent of the
`use_tool` argument: for every query, URL list, `max_results` and
backend behavior, any two values of `use_tool` give identical output.
The embedding also exhibits that only the structured-search (Tavily)
backend is reachable from the body: the function consumes one
`TavilyBackend` oracle and its body mentions no other backend. -/
theorem C3_use_tool_is_ignored (q : String) (urls : List String) (t₁ t₂ : String)
    (m : Int) (tb : TavilyBackend) :
    search_with_urls q urls t₁ m tb = search_with_urls q urls t₂ m tb := rfl

/-- C4 counterexample: with `max_results = 1` and a backend reply
containing 2 results, `search_tavily` formats an enumerated list of 2
entries — the source enumerates every element of
`response['results']` and performs no client-side truncation to
`max_results`. -/
theorem C4_counterexample :
    (tavilyEntries 1 [⟨"T1", "u1", "c1"⟩, ⟨"T2", "u2", "c2"⟩]).length = 2 ∧
    ¬ ((2 : Int) ≤ (1 : Int)) ∧
    search_tavily "q" "advanced" 1
        (fun _ => .ok ⟨none, [⟨"T1", "u1", "c1"⟩, ⟨"T2", "u2", "c2"⟩]⟩) =
      "**Tavily Data:**\n1. T1 - u1\nSnippet: c1\n2. T2 - u2\nSnippet: c2\n" := by
  refine ⟨by decide, by decide, by decide⟩

/-- C4 amended: on a non-empty backend reply, `search_tavily` formats
one enumerated entry per result of the reply — the entry count equals
the reply's result count, and is bounded by `max_results` exactly when
the backend itself returned at most `max_results` results. -/
theorem C4_amended_entry_count (q d : String) (m : Int) (resp : TavilyResponse)
    (tb : TavilyBackend) (h : tb (tavilySearchCall q d m) = .ok resp)
    (hne : resp.results ≠ []) :
    search_tavily q d m tb =
      "**Tavily Data:**\n" ++ answerLine resp.answer
        ++ strJoin (tavilyEntries 1 resp.results) ∧
    (tavilyEntries 1 resp.results).length = resp.results.length ∧
    ((resp.results.length : Int) ≤ m → ((tavilyEntries 1 resp.results).length : Int) ≤ m) := by
  refine ⟨?_, tavilyEntries_length 1 _, ?_⟩
  · unfold search_tavily
    rw [h]
    have he : resp.results.isEmpty = false := by
      cases hr : resp.results with
      | nil => exact absurd hr hne
      | cons a t => rfl
    simp [he]
  · intro hle
    rw [tavilyEntries_length]
    exact hle

/-- Concrete instantiation of `C4_amended_entry_count` at a backend
returning a single result with `max_results = 3`. -/
theorem C4_amended_entry_count_witness :
    search_tavily "q" "advanced" 3 (fun _ => .ok ⟨none, [⟨"T1", "u1", "c1"⟩]⟩) =
      "**Tavily Data:**\n" ++ answerLine none
        ++ strJoin (tavilyEntries 1 [⟨"T1", "u1", "c1"⟩]) ∧
    (tavilyEntries 1 [⟨"T1", "u1", "c1"⟩]).length = [(⟨"T1", "u1", "c1"⟩ : TavilyResult)].length ∧
    (([(⟨"T1", "u1", "c1"⟩ : TavilyResult)].length : Int) ≤ 3 →
      ((tavilyEntries 1 [⟨"T1", "u1", "c1"⟩]).length : Int) ≤ 3) :=
  C4_amended_entry_count "q" "advanced" 3 ⟨none, [⟨"T1", "u1", "c1"⟩]⟩ _ rfl (by decide)

/-- C5 counterexample: on input `"["` the parse of the reassigned URL
`"http://["` raises (unbalanced bracket, "Invalid IPv6 URL"), and
`extract_domain` returns `"http://["` — not the original input `"["`
unchanged, because the source reassigns `url = "http://" + url` before
the `try` block parses it. -/
theorem C5_counterexample :
    urlparseNetloc "http://[" = .error () ∧
    extract_domain "[" ≠ "[" ∧
    extract_domain "[" = "http://[" :=
  ⟨rfl, by decide, by decide⟩

/-- C5 amended: `extract_domain` never raises (it is a total function of
the embedding) and has no side effects; when the parse fails it returns
the local `url` value at the point of failure — the original input when
it already contains `"://"`, and `"http://" ++ input` otherwise. -/
theorem C5_amended_fail_open (url : String)
    (h : urlparseNetloc (if strContainsSub url "://" then url else "http://" ++ url)
           = .error ()) :
    extract_domain url = (if strContainsSub url "://" then url else "http://" ++ url) := by
  simp only [extract_domain]
  rw [h]

/-- Concrete instantiation of `C5_amended_fail_open` at the failing
input `"["`. -/
theorem C5_amended_fail_open_witness :
    extract_domain "[" = (if strContainsSub "[" "://" then "[" else "http://" ++ "[") :=
  C5_amended_fail_open "[" rfl

/-- C6: `extract_domain` strips scheme, path and a leading `www.`, and
prepends a default scheme when `"://"` is absent: both
`"https://www.example.com/path"` and the scheme-less `"example.com"`
normalize to `"example.com"`. -/
theorem C6_extract_domain_examples :
    extract_domain "https://www.example.com/path" = "example.com" ∧
    extract_domain "example.com" = "example.com" := by
  refine ⟨by decide, by decide⟩

/-- C7: `search_with_urls` depends on its backend oracle only through
the call whose inclusion filter is exactly the input URLs normalized by
`extract_domain`, in order; that filter for
`urls = ["https://www.nu.edu.eg/page"]` is `["nu.edu.eg"]`. -/
theorem C7_domains_normalized :
    (∀ (q : String) (urls : List String) (t : String) (m : Int) (b₁ b₂ : TavilyBackend),
        b₁ (searchWithUrlsCall q urls m) = b₂ (searchWithUrlsCall q urls m) →
        search_with_urls q urls t m b₁ = search_with_urls q urls t m b₂) ∧
    (∀ (q : String) (urls : List String) (m : Int),
        (searchWithUrlsCall q urls m).includeDomains = some (urls.map extract_domain)) ∧
    (searchWithUrlsCall "q" ["https://www.nu.edu.eg/page"] 10).includeDomains
      = some ["nu.edu.eg"] := by
  refine ⟨?_, fun q urls m => rfl, by decide⟩
  intro q urls t m b₁ b₂ h
  unfold search_with_urls
  rw [h]

/-- Concrete instantiation of `C7_domains_normalized`: two extensionally
equal backends give equal outputs on the `nu.edu.eg` scenario. -/
theorem C7_domains_normalized_witness :
    search_with_urls "q" ["https://www.nu.edu.eg/page"] "auto" 10 (fun _ => .ok ⟨none, []⟩) =
    search_with_urls "q" ["https://www.nu.edu.eg/page"] "auto" 10
      (fun c => if c.includeAnswer then .error "unreached" else .ok ⟨none, []⟩) :=
  C7_domains_normalized.1 "q" ["https://www.nu.edu.eg/page"] "auto" 10 _ _ rfl

/-- C8: in each of the three adapters, the snippet interpolated into a
result's entry is the result text cut to at most 200 characters. -/
theorem C8_snippet_bound (rt : TavilyResult) (re : ExaResult) (ru : TavilyResult) :
    (tavilySnippet rt).length ≤ 200 ∧
    (exaSnippet re).length ≤ 200 ∧
    (urlSnippet ru).length ≤ 200 := by
  refine ⟨?_, ?_, ?_⟩
  · show (rt.content.data.take 200).length ≤ 200
    rw [List.length_take]
    exact Nat.min_le_left _ _
  · show (re.text.data.take 200).length ≤ 200
    rw [List.length_take]
    exact Nat.min_le_left _ _
  · show (ru.content.data.take 200).length ≤ 200
    rw [List.length_take]
    exact Nat.min_le_left _ _

/-- Results of the C9 scenario backend: exactly two results. -/
def c9Results : List TavilyResult :=
  [⟨"A", "u1", "alpha"⟩, ⟨"B", "u2", "beta"⟩]

/-- C9: `search_tavily "X" "advanced" 2` against a backend replying with
a non-empty answer and exactly 2 results yields text with exactly one
`"Quick Summary:"` line followed by exactly the entries numbered 1 and
2 (and no entry 3); with no answer — or the falsy empty-string answer —
the `"Quick Summary:"` line is absent. -/
theorem C9_scenario :
    search_tavily "X" "advanced" 2 (fun _ => .ok ⟨some "Because.", c9Results⟩) =
      "**Tavily Data:**\nQuick Summary: Because.\n1. A - u1\nSnippet: alpha\n2. B - u2\nSnippet: beta\n" ∧
    countOcc (search_tavily "X" "advanced" 2 (fun _ => .ok ⟨some "Because.", c9Results⟩)).data
      "Quick Summary:".data = 1 ∧
    (tavilyEntries 1 c9Results).length = 2 ∧
    countOcc (search_tavily "X" "advanced" 2 (fun _ => .ok ⟨some "Because.", c9Results⟩)).data
      "\n1. ".data = 1 ∧
    countOcc (search_tavily "X" "advanced" 2 (fun _ => .ok ⟨some "Because.", c9Results⟩)).data
      "\n2. ".data = 1 ∧
    countOcc (search_tavily "X" "advanced" 2 (fun _ => .ok ⟨some "Because.", c9Results⟩)).data
      "\n3. ".data = 0 ∧
    countOcc (search_tavily "X" "advanced" 2 (fun _ => .ok ⟨none, c9Results⟩)).data
      "Quick Summary:".data = 0 ∧
    countOcc (search_tavily "X" "advanced" 2 (fun _ => .ok ⟨some "", c9Results⟩)).data
      "Quick Summary:".data = 0 := by
  refine ⟨by decide, by decide, by decide, by decide, by decide, by decide, by decide, by decide⟩

/-- C10: the `www.` strip of `extract_domain` is case-sensitive and
applied at most once: `"https://WWW.example.com"` is returned with its
uppercase `WWW.` intact, and `"https://www.www.example.com"` loses only
the first `www.`. -/
theorem C10_www_strip_case_sensitive_once :
    extract_domain "https://WWW.example.com" = "WWW.example.com" ∧
    extract_domain "https://www.www.example.com" = "www.example.com" := by
  refine ⟨by decide, by decide⟩
